import Mathlib

/-!
# Verification of the sp1-vector operator's synchronization planner and relay pipeline

Shallow embedding of `script/bin/operator.rs`: the pure decision logic
(`find_rotate`, `find_header_range`, `find_block_to_step_to`), the relay
functions (`relay_header_range`, `relay_rotate`), the per-cycle control flow of
`VectorXOperator::run` together with `main`'s supervision loop, and the
`get_block_update_interval` configuration reader.

External effects (the Avail RPC data fetcher, the destination contract reads,
the transaction send/confirmation machinery, the KMS relay service and the
environment) are modelled as explicit inputs: a `RpcDataFetcher` record of the
fetcher's answers, a `SP1VectorContract` record of the contract's fields, and a
`RelayEnv` / `CycleOracle` record of the outcomes of the effectful calls.
Machine integers (`u32`, `u64`) are modelled as `Nat`; none of the properties
verified here concerns wrap-around, and all subtractions mirror the source's
expressions. A Rust panic (an `unwrap` of an absent value, or `%` by zero) is
modelled explicitly as a distinguished result, never as a defaulted value.
-/

namespace SP1Vector

/-- Answers of the Avail RPC data fetcher (`services::input::RpcDataFetcher`),
modelled as a record of total functions: `head_block` is
`fetcher.get_head().await.number`; `authority_set_id b` is
`fetcher.get_authority_set_id(b)`; `last_justified_block id` is
`fetcher.last_justified_block(id)` (0 means unknown / current epoch);
`justification_exists b` is
`fetcher.get_justification_data_for_block(b).is_some()`. -/
structure RpcDataFetcher where
  head_block : Nat
  authority_set_id : Nat → Nat
  last_justified_block : Nat → Nat
  justification_exists : Nat → Bool

/-- Readable fields of the destination `SP1Vector` contract used by the
planner. Hashes (`bytes32`) are modelled as `Nat` with `0` standing for
`B256::ZERO` (the absent-hash sentinel). -/
structure SP1VectorContract where
  latestBlock : Nat
  latestAuthoritySetId : Nat
  authoritySetIdToHash : Nat → Nat
  headerRangeCommitmentTreeSize : Nat

/-- `RotateContractData` from the source: current block and whether the next
authority set hash exists. -/
structure RotateContractData where
  current_block : Nat
  next_authority_set_hash_exists : Bool

/-- `HeaderRangeContractData` from the source. -/
structure HeaderRangeContractData where
  vectorx_latest_block : Nat
  avail_current_block : Nat
  header_range_commitment_tree_size : Nat
  next_authority_set_hash_exists : Bool

/-- `VectorXOperator::get_contract_data_for_rotate`: reads `latestBlock` and
`latestAuthoritySetId` from the contract and checks whether
`authoritySetIdToHash(latestAuthoritySetId + 1)` is a non-zero hash. -/
def get_contract_data_for_rotate (contract : SP1VectorContract) : RotateContractData :=
  { current_block := contract.latestBlock
    next_authority_set_hash_exists :=
      contract.authoritySetIdToHash (contract.latestAuthoritySetId + 1) != 0 }

/-- `VectorXOperator::find_rotate`: returns `some current_authority_set_id`
when the authority set id of the block before the contract's latest block is
behind the authority set id of the block before the chain head AND the
contract data says the next authority set hash does not exist. The hash
checked by `get_contract_data_for_rotate` is the one for
`contract.latestAuthoritySetId + 1`. -/
def find_rotate (contract : SP1VectorContract) (fetcher : RpcDataFetcher) : Option Nat :=
  let rotate_contract_data := get_contract_data_for_rotate contract
  let head_block := fetcher.head_block
  let head_authority_set_id := fetcher.authority_set_id (head_block - 1)
  let current_authority_set_id := fetcher.authority_set_id (rotate_contract_data.current_block - 1)
  if current_authority_set_id < head_authority_set_id
      ∧ rotate_contract_data.next_authority_set_hash_exists = false then
    some current_authority_set_id
  else
    none

/-- A Rust panic observed in the modelled code: remainder by zero
(`max_valid_block_to_step_to % ideal_block_interval` with a zero interval), or
`Option::unwrap` / `Result::unwrap` on an absent value
(`env::var("SP1_PROVER").unwrap()`). -/
inductive PanicKind where
  | divByZero
  | unwrapFailed
  deriving DecidableEq, Repr

/-- The justification-probe loop of `find_block_to_step_to`, with explicit
fuel. The source loop first tests `block_to_step_to > max_valid_block_to_step_to`
(search exhausted: return `None`), then breaks when
`get_justification_data_for_block(block_to_step_to)` is `Some`, else increments
`block_to_step_to`. The caller passes fuel `max_valid + 1 - start`, which is
exactly the number of iterations after which the exhaustion test fires, so the
fuel-0 branch coincides with the exhaustion branch. -/
def probe_loop (justified : Nat → Bool) (max_valid : Nat) :
    Nat → Nat → Option Nat
  | 0, _ => none
  | fuel + 1, b =>
    if b > max_valid then none
    else if justified b then some b
    else probe_loop justified max_valid fuel (b + 1)

/-- `VectorXOperator::find_block_to_step_to`. Mirrors the source exactly:
1. fetch `last_justified_block` for `authority_set_id`; if non-zero and within
   `vectorx_current_block + header_range_commitment_tree_size`, return it;
2. otherwise `max_valid := min (current + tree_size) avail_head`; round down to
   a multiple of `ideal_block_interval` (Rust `%` panics when the interval is
   zero: modelled as `Except.error .divByZero`);
3. if the rounded block is `<=` the current block, return `none`;
4. otherwise linearly probe for a justification up to `max_valid`. -/
def find_block_to_step_to (fetcher : RpcDataFetcher)
    (ideal_block_interval header_range_commitment_tree_size
      vectorx_current_block avail_current_block authority_set_id : Nat) :
    Except PanicKind (Option Nat) :=
  let last_justified_block := fetcher.last_justified_block authority_set_id
  if last_justified_block ≠ 0
      ∧ last_justified_block ≤ vectorx_current_block + header_range_commitment_tree_size then
    Except.ok (some last_justified_block)
  else
    let max_valid_block_to_step_to :=
      min (vectorx_current_block + header_range_commitment_tree_size) avail_current_block
    if ideal_block_interval = 0 then
      Except.error PanicKind.divByZero
    else
      let block_to_step_to :=
        max_valid_block_to_step_to - max_valid_block_to_step_to % ideal_block_interval
      if block_to_step_to ≤ vectorx_current_block then
        Except.ok none
      else
        Except.ok (probe_loop fetcher.justification_exists max_valid_block_to_step_to
          (max_valid_block_to_step_to + 1 - block_to_step_to) block_to_step_to)

/-- `VectorXOperator::get_contract_data_for_header_range`: unlike the rotate
variant, the next authority set id here is derived from the fetcher
(`get_authority_set_id(latestBlock - 1) + 1`), not from the contract's
`latestAuthoritySetId` field. -/
def get_contract_data_for_header_range (contract : SP1VectorContract)
    (fetcher : RpcDataFetcher) : HeaderRangeContractData :=
  let vectorx_latest_block := contract.latestBlock
  let vectorx_current_authority_set_id := fetcher.authority_set_id (vectorx_latest_block - 1)
  let next_authority_set_id := vectorx_current_authority_set_id + 1
  { vectorx_latest_block := vectorx_latest_block
    avail_current_block := fetcher.head_block
    header_range_commitment_tree_size := contract.headerRangeCommitmentTreeSize
    next_authority_set_hash_exists :=
      contract.authoritySetIdToHash next_authority_set_id != 0 }

/-- `VectorXOperator::find_header_range`, parameterized by the block-search
routine `search : authority_set_id → result` so that non-invocation of the
search on the early-return path is expressible by quantifying over `search`.
The operator instantiates `search` with `find_block_to_step_to`
(see `find_header_range`). -/
def find_header_range_with (search : Nat → Except PanicKind (Option Nat))
    (contract : SP1VectorContract) (fetcher : RpcDataFetcher) :
    Except PanicKind (Option (Nat × Nat)) :=
  let d := get_contract_data_for_header_range contract fetcher
  let current_authority_set_id := fetcher.authority_set_id (d.vectorx_latest_block - 1)
  let last_justified_block := fetcher.last_justified_block current_authority_set_id
  let go (request_authority_set_id : Nat) : Except PanicKind (Option (Nat × Nat)) :=
    match search request_authority_set_id with
    | Except.error p => Except.error p
    | Except.ok (some block_to_step_to) =>
        Except.ok (some (d.vectorx_latest_block, block_to_step_to))
    | Except.ok none => Except.ok none
  if d.vectorx_latest_block = last_justified_block then
    if d.next_authority_set_hash_exists = false then
      Except.ok none
    else
      go (current_authority_set_id + 1)
  else
    go current_authority_set_id

/-- `VectorXOperator::find_header_range` with the search instantiated to
`find_block_to_step_to` on the contract data, as in the source. -/
def find_header_range (contract : SP1VectorContract) (fetcher : RpcDataFetcher)
    (ideal_block_interval : Nat) : Except PanicKind (Option (Nat × Nat)) :=
  let d := get_contract_data_for_header_range contract fetcher
  find_header_range_with
    (fun request_authority_set_id =>
      find_block_to_step_to fetcher ideal_block_interval
        d.header_range_commitment_tree_size d.vectorx_latest_block
        d.avail_current_block request_authority_set_id)
    contract fetcher

/-- A proof artifact (`SP1ProofWithPublicValues`) as seen by the relay
functions: `bytes` is `proof.bytes()` and `public_values` is
`proof.public_values.to_vec()`. -/
structure SP1Proof where
  bytes : List Nat
  public_values : List Nat

/-- A destination-chain transaction receipt as observed after
`with_required_confirmations(3).with_timeout(60s).get_receipt()`:
its `status()` flag and `transaction_hash`. -/
structure Receipt where
  status : Bool
  transaction_hash : Nat

/-- Outcomes of the effectful calls a relay function makes, plus its static
configuration: `sp1_prover` is `env::var("SP1_PROVER")` (`none` if unset);
`use_kms_relayer` selects the custodial path; `kms_result` is the outcome of
`relay::relay_with_kms` (retries happen inside that opaque call);
`send_result` is the outcome of the self-signed
send / confirmation-wait / `get_receipt` chain, whose errors the source
propagates with `?`. -/
structure RelayEnv where
  sp1_prover : Option String
  use_kms_relayer : Bool
  kms_result : Except String Nat
  send_result : Except String Receipt

/-- What a relay function did: the payload it submitted to the contract call
(proof bytes and public-values bytes) and the result it returned, or a panic. -/
inductive RelayOutcome where
  | panicked (k : PanicKind)
  | submitted (proof_bytes public_values : List Nat) (result : Except String Nat)

/-- `VectorXOperator::relay_header_range`. The source first evaluates
`env::var("SP1_PROVER").unwrap().to_lowercase() == "mock"` — the `unwrap`
panics when the variable is unset, before the KMS/self-signed branch. In mock
mode the proof payload is `vec![]`; the public-values payload is always
`proof.public_values.to_vec()`. On the self-signed path a mined receipt with
`status() == false` is turned into an error ("Transaction reverted!"); only a
true status returns the transaction hash. -/
def relay_header_range (env : RelayEnv) (proof : SP1Proof) : RelayOutcome :=
  match env.sp1_prover with
  | none => RelayOutcome.panicked PanicKind.unwrapFailed
  | some prover_mode =>
    let proof_as_bytes := if prover_mode.toLower = "mock" then [] else proof.bytes
    if env.use_kms_relayer then
      RelayOutcome.submitted proof_as_bytes proof.public_values env.kms_result
    else
      match env.send_result with
      | Except.error e =>
          RelayOutcome.submitted proof_as_bytes proof.public_values (Except.error e)
      | Except.ok receipt =>
          if receipt.status = false then
            RelayOutcome.submitted proof_as_bytes proof.public_values
              (Except.error "Transaction reverted!")
          else
            RelayOutcome.submitted proof_as_bytes proof.public_values
              (Except.ok receipt.transaction_hash)

/-- `VectorXOperator::relay_rotate`: textually parallel to
`relay_header_range` in the source (same `SP1_PROVER` unwrap, same mock-mode
proof-bytes replacement, same KMS/self-signed branching and receipt-status
check), differing only in the contract method it calls. -/
def relay_rotate (env : RelayEnv) (proof : SP1Proof) : RelayOutcome :=
  match env.sp1_prover with
  | none => RelayOutcome.panicked PanicKind.unwrapFailed
  | some prover_mode =>
    let proof_as_bytes := if prover_mode.toLower = "mock" then [] else proof.bytes
    if env.use_kms_relayer then
      RelayOutcome.submitted proof_as_bytes proof.public_values env.kms_result
    else
      match env.send_result with
      | Except.error e =>
          RelayOutcome.submitted proof_as_bytes proof.public_values (Except.error e)
      | Except.ok receipt =>
          if receipt.status = false then
            RelayOutcome.submitted proof_as_bytes proof.public_values
              (Except.error "Transaction reverted!")
          else
            RelayOutcome.submitted proof_as_bytes proof.public_values
              (Except.ok receipt.transaction_hash)

/-- Decimal-digit accumulator of `u32::from_str`: every character must be a
digit, the value is built most-significant first. (The `u32` range check is
not modelled; no property here depends on it.) -/
def parse_u32_aux : List Char → Nat → Option Nat
  | [], acc => some acc
  | c :: cs, acc =>
    if c.isDigit then parse_u32_aux cs (10 * acc + (c.toNat - 48)) else none

/-- Rust's `str::parse::<u32>`: an empty string or any non-digit character is
a parse error. -/
def parse_u32 (s : String) : Option Nat :=
  match s.data with
  | [] => none
  | cs => parse_u32_aux cs 0

/-- `get_block_update_interval`: reads `BLOCK_UPDATE_INTERVAL` from the
environment (`none` = unset ⇒ default 360); a set value is parsed as a `u32`
with `.expect(...)`, which panics on a malformed string (modelled as `none`). -/
def get_block_update_interval (env_var : Option String) : Option Nat :=
  match env_var with
  | none => some 360
  | some s => parse_u32 s

/-- Outcomes of the effectful calls one iteration of `VectorXOperator::run`
makes. Proof artifacts and transaction hashes are abstracted to the outcome
level: what matters to the control flow is only success vs. failure. -/
structure CycleOracle where
  find_rotate_result : Except String (Option Nat)
  request_rotate_result : Except String SP1Proof
  relay_rotate_result : Except String Nat
  find_header_range_result : Except String (Option (Nat × Nat))
  request_header_range_result : Except String SP1Proof
  relay_header_range_result : Except String Nat

/-- Observable events of one cycle of `run`, in execution order. -/
inductive CycleEvent where
  | rotateRelayed (next_authority_set_id : Nat) (tx_hash : Nat)
  | headerRangeRelayed (from_block to_block tx_hash : Nat)
  | headerRangeProofFailed (e : String)
  deriving DecidableEq, Repr

/-- One iteration of the loop body of `VectorXOperator::run`, faithful to its
control flow: `find_rotate().await?`, `request_rotate(..).await?` and
`relay_rotate(..).await?` all propagate errors out of `run` with `?` (skipping
everything after them in the cycle); `find_header_range(..).await?` and
`relay_header_range(..).await?` likewise; only `request_header_range` is
matched in place, its error merely logged. Returns the events that executed
together with the error `run` propagates, if any. -/
def run_cycle (oracle : CycleOracle) : List CycleEvent × Option String :=
  match oracle.find_rotate_result with
  | Except.error e => ([], some e)
  | Except.ok current_authority_set_id =>
    let rotate_phase : List CycleEvent × Option String :=
      match current_authority_set_id with
      | none => ([], none)
      | some id =>
        match oracle.request_rotate_result with
        | Except.error e => ([], some e)
        | Except.ok _proof =>
          match oracle.relay_rotate_result with
          | Except.error e => ([], some e)
          | Except.ok tx_hash => ([CycleEvent.rotateRelayed (id + 1) tx_hash], none)
    match rotate_phase with
    | (events, some e) => (events, some e)
    | (events, none) =>
      match oracle.find_header_range_result with
      | Except.error e => (events, some e)
      | Except.ok none => (events, none)
      | Except.ok (some (from_block, to_block)) =>
        match oracle.request_header_range_result with
        | Except.error e => (events ++ [CycleEvent.headerRangeProofFailed e], none)
        | Except.ok _proof =>
          match oracle.relay_header_range_result with
          | Except.error e => (events, some e)
          | Except.ok tx_hash =>
            (events ++ [CycleEvent.headerRangeRelayed from_block to_block tx_hash], none)

/-- One iteration of `main`'s supervision loop:
`if let Err(e) = operator.run().await { error!(..) }` — whatever error `run`
propagates is caught and logged, and the loop continues to the next call of
`run` with freshly read on-chain state; the error never escapes `main`. The
boolean records that the loop continues (it always does). -/
def main_iteration (oracle : CycleOracle) : List CycleEvent × Bool :=
  match run_cycle oracle with
  | (events, _) => (events, true)

/-- The proof-bytes payload a relay outcome submitted, if it did not panic. -/
def RelayOutcome.submitted_proof_bytes : RelayOutcome → Option (List Nat)
  | RelayOutcome.panicked _ => none
  | RelayOutcome.submitted pb _ _ => some pb

/-- The public-values payload a relay outcome submitted, if it did not panic. -/
def RelayOutcome.submitted_public_values : RelayOutcome → Option (List Nat)
  | RelayOutcome.panicked _ => none
  | RelayOutcome.submitted _ pv _ => some pv

/-- The result a relay outcome returned, if it did not panic. -/
def RelayOutcome.returned : RelayOutcome → Option (Except String Nat)
  | RelayOutcome.panicked _ => none
  | RelayOutcome.submitted _ _ r => some r

/-! ## Concrete instances used by counterexamples and witnesses -/

/-- A chain state where the authority set id of the block before the contract's
latest block (block 99 ↦ set 5) lags the head's (block 199 ↦ set 7). -/
def exFetcherRotate : RpcDataFetcher :=
  { head_block := 200
    authority_set_id := fun b => if b = 199 then 7 else if b = 99 then 5 else 0
    last_justified_block := fun _ => 0
    justification_exists := fun _ => false }

/-- A contract snapshot whose stored `latestAuthoritySetId` (3) disagrees with
the fetcher-derived authority set id of the block before `latestBlock` (5):
the hash for set 4 is present, the hash for set 6 is absent. -/
def exContractRotate : SP1VectorContract :=
  { latestBlock := 100
    latestAuthoritySetId := 3
    authoritySetIdToHash := fun id => if id = 4 then 7 else 0
    headerRangeCommitmentTreeSize := 1000 }

/-- The block-search scenario of the spec's worked example: head 5900, no
epoch boundary pending, and a justification available only at block 5761. -/
def exFetcherProbe : RpcDataFetcher :=
  { head_block := 5900
    authority_set_id := fun _ => 1
    last_justified_block := fun _ => 0
    justification_exists := fun b => b = 5761 }

/-- A scenario where the epoch shortcut fires: authority set 1's last
justified block is 5. -/
def exFetcherEpoch : RpcDataFetcher :=
  { head_block := 500
    authority_set_id := fun _ => 1
    last_justified_block := fun id => if id = 1 then 5 else 0
    justification_exists := fun _ => false }

/-! ## Properties of the justification probe loop -/

/-- If the probe loop finds a block, that block is between the start and
`max_valid`, it has a justification, and every earlier block from the start
on has none. Holds for any fuel. -/
theorem probe_loop_eq_some (justified : Nat → Bool) (max_valid : Nat) :
    ∀ fuel b r, probe_loop justified max_valid fuel b = some r →
      b ≤ r ∧ r ≤ max_valid ∧ justified r = true ∧
        ∀ c, b ≤ c → c < r → justified c = false := by
  intro fuel
  induction fuel with
  | zero => intro b r h; simp [probe_loop] at h
  | succ n ih =>
    intro b r h
    by_cases hb : b > max_valid
    · simp [probe_loop, hb] at h
    · by_cases hj : justified b = true
      · have hr : b = r := by simpa [probe_loop, hb, hj] using h
        subst hr
        exact ⟨le_rfl, le_of_not_lt hb, hj, fun c h1 h2 => absurd (lt_of_le_of_lt h1 h2) (lt_irrefl b)⟩
      · have h' : probe_loop justified max_valid n (b + 1) = some r := by
          simpa [probe_loop, hb, hj] using h
        obtain ⟨h1, h2, h3, h4⟩ := ih (b + 1) r h'
        refine ⟨Nat.le_of_succ_le h1, h2, h3, fun c hc1 hc2 => ?_⟩
        rcases Nat.eq_or_lt_of_le hc1 with hc | hc
        · simpa [← hc] using eq_false_of_ne_true hj
        · exact h4 c hc hc2

/-- If no block from the start through `max_valid` has a justification, the
probe loop returns `none`, for any fuel. -/
theorem probe_loop_eq_none (justified : Nat → Bool) (max_valid : Nat) :
    ∀ fuel b, (∀ c, b ≤ c → c ≤ max_valid → justified c = false) →
      probe_loop justified max_valid fuel b = none := by
  intro fuel
  induction fuel with
  | zero => intro b _; rfl
  | succ n ih =>
    intro b h
    by_cases hb : b > max_valid
    · simp [probe_loop, hb]
    · have hj : justified b = false := h b le_rfl (le_of_not_lt hb)
      simp only [probe_loop, if_neg hb, hj, if_neg (Bool.false_ne_true)]
      exact ih (b + 1) fun c hc1 hc2 => h c (Nat.le_of_succ_le hc1) hc2

/-! ## C1 — rotate detection -/

/-- C1, counterexample. The claim says `find_rotate` returns
`some current_id` whenever `current_id < head_id` and the contract stores no
hash for `current_id + 1`, where `current_id` is the authority-set id of the
block before the contract's latest block. In this snapshot `current_id = 5`,
`head_id = 7`, and the hash for set `6 = current_id + 1` is absent, yet
`find_rotate` returns `none`: the code checks the hash for
`contract.latestAuthoritySetId + 1 = 4`, which is present. -/
theorem claim_C1_counterexample :
    (exFetcherRotate.authority_set_id (exContractRotate.latestBlock - 1) <
        exFetcherRotate.authority_set_id (exFetcherRotate.head_block - 1) ∧
      exContractRotate.authoritySetIdToHash
        (exFetcherRotate.authority_set_id (exContractRotate.latestBlock - 1) + 1) = 0) ∧
    find_rotate exContractRotate exFetcherRotate = none := by
  exact ⟨⟨by decide, by decide⟩, by decide⟩

/-- C1, amended: `find_rotate` returns `some current_id` exactly when
`current_id < head_id` (both derived from the fetcher as in the claim) and the
contract stores no hash for `latestAuthoritySetId + 1` — the contract's own
stored latest authority-set id field, not the fetcher-derived `current_id`;
in every other case it returns `none`. -/
theorem claim_C1_amended (contract : SP1VectorContract) (fetcher : RpcDataFetcher) :
    find_rotate contract fetcher =
      if fetcher.authority_set_id (contract.latestBlock - 1) <
            fetcher.authority_set_id (fetcher.head_block - 1) ∧
          contract.authoritySetIdToHash (contract.latestAuthoritySetId + 1) = 0 then
        some (fetcher.authority_set_id (contract.latestBlock - 1))
      else
        none := by
  simp only [find_rotate, get_contract_data_for_rotate, bne_eq_false_iff_eq]

/-! ## C3 — epoch-boundary shortcut of the block search -/

/-- C3: when the fetched `last_justified_block` for the authority set is
non-zero and at most `current_block + tree_size`, `find_block_to_step_to`
returns exactly it. The interval is an arbitrary value — including `0`, which
would panic in the rounding step — and the result does not depend on the
justification oracle or the chain head, so the interval-rounding and
justification-probe logic are not consulted. -/
theorem claim_C3_epoch_shortcut (fetcher : RpcDataFetcher)
    (ideal_block_interval header_range_commitment_tree_size
      vectorx_current_block avail_current_block authority_set_id : Nat)
    (h0 : fetcher.last_justified_block authority_set_id ≠ 0)
    (h1 : fetcher.last_justified_block authority_set_id ≤
      vectorx_current_block + header_range_commitment_tree_size) :
    find_block_to_step_to fetcher ideal_block_interval header_range_commitment_tree_size
        vectorx_current_block avail_current_block authority_set_id =
      Except.ok (some (fetcher.last_justified_block authority_set_id)) := by
  unfold find_block_to_step_to
  simp only [if_pos (And.intro h0 h1)]

/-- C3, witness: authority set 1's last justified block is 5, current block
10, tree size 100. -/
theorem claim_C3_witness :
    (exFetcherEpoch.last_justified_block 1 ≠ 0 ∧
      exFetcherEpoch.last_justified_block 1 ≤ 10 + 100) ∧
    find_block_to_step_to exFetcherEpoch 360 100 10 500 1 =
      Except.ok (some (exFetcherEpoch.last_justified_block 1)) :=
  ⟨⟨by decide, by decide⟩,
    claim_C3_epoch_shortcut exFetcherEpoch 360 100 10 500 1 (by decide) (by decide)⟩

/-! ## C5 — no-progress early return of the block search -/

/-- C5: when the epoch shortcut does not fire and the interval-rounded
candidate (`max_valid - max_valid % ideal_interval` with
`max_valid = min (current_block + tree_size) chain_head`) is at most the
current block, `find_block_to_step_to` returns `none`. The interval is
required positive, as presupposed by the claim's rounding expression (a zero
interval instead panics, see C10). -/
theorem claim_C5_no_progress (fetcher : RpcDataFetcher)
    (ideal_block_interval header_range_commitment_tree_size
      vectorx_current_block avail_current_block authority_set_id : Nat)
    (hpos : 0 < ideal_block_interval)
    (hns : ¬(fetcher.last_justified_block authority_set_id ≠ 0 ∧
      fetcher.last_justified_block authority_set_id ≤
        vectorx_current_block + header_range_commitment_tree_size))
    (hle : min (vectorx_current_block + header_range_commitment_tree_size) avail_current_block -
        min (vectorx_current_block + header_range_commitment_tree_size) avail_current_block %
          ideal_block_interval ≤ vectorx_current_block) :
    find_block_to_step_to fetcher ideal_block_interval header_range_commitment_tree_size
        vectorx_current_block avail_current_block authority_set_id =
      Except.ok none := by
  unfold find_block_to_step_to
  simp only [if_neg hns, if_neg (Nat.pos_iff_ne_zero.mp hpos), if_pos hle]

/-- C5, witness: last justified block 0 (shortcut off), current block 5000,
tree size 1000, chain head 5003: `max_valid = 5003`, candidate
`5003 - 5003 % 360 = 4680 ≤ 5000`. -/
theorem claim_C5_witness :
    (0 < 360 ∧
      ¬(exFetcherProbe.last_justified_block 1 ≠ 0 ∧
        exFetcherProbe.last_justified_block 1 ≤ 5000 + 1000) ∧
      min (5000 + 1000) 5003 - min (5000 + 1000) 5003 % 360 ≤ 5000) ∧
    find_block_to_step_to exFetcherProbe 360 1000 5000 5003 1 = Except.ok none :=
  ⟨⟨by decide, by decide, by decide⟩,
    claim_C5_no_progress exFetcherProbe 360 1000 5000 5003 1 (by decide) (by decide) (by decide)⟩

/-! ## C10 — zero block-update interval -/

/-- C10, counterexample. The claim says that with `ideal_block_interval = 0`
the function panics on *every* input; but when the epoch shortcut fires
(`last_justified_block = 5 ≠ 0` and `5 ≤ 10 + 100`) the function returns
before the rounding step and does not panic, even with interval `0`. -/
theorem claim_C10_counterexample :
    get_block_update_interval (some "0") = some 0 ∧
    find_block_to_step_to exFetcherEpoch 0 100 10 500 1 = Except.ok (some 5) :=
  ⟨rfl, rfl⟩

/-- C10, amended: the `BLOCK_UPDATE_INTERVAL` parser accepts `"0"` (yielding
interval 0), and for every input with interval `0` on which the epoch
shortcut does not fire, `find_block_to_step_to` reaches
`max_valid % ideal_block_interval` and panics with a division (remainder) by
zero instead of returning `none`. -/
theorem claim_C10_amended (fetcher : RpcDataFetcher)
    (header_range_commitment_tree_size vectorx_current_block
      avail_current_block authority_set_id : Nat)
    (hns : ¬(fetcher.last_justified_block authority_set_id ≠ 0 ∧
      fetcher.last_justified_block authority_set_id ≤
        vectorx_current_block + header_range_commitment_tree_size)) :
    get_block_update_interval (some "0") = some 0 ∧
    find_block_to_step_to fetcher 0 header_range_commitment_tree_size
        vectorx_current_block avail_current_block authority_set_id =
      Except.error PanicKind.divByZero := by
  refine ⟨rfl, ?_⟩
  unfold find_block_to_step_to
  rw [if_neg hns, if_pos rfl]

/-- C10, witness: last justified block 0 for set 1, so the shortcut is off
and the zero interval is fatal. -/
theorem claim_C10_witness :
    (¬(exFetcherProbe.last_justified_block 1 ≠ 0 ∧
      exFetcherProbe.last_justified_block 1 ≤ 5000 + 1000)) ∧
    (get_block_update_interval (some "0") = some 0 ∧
      find_block_to_step_to exFetcherProbe 0 1000 5000 5900 1 =
        Except.error PanicKind.divByZero) :=
  ⟨by decide, claim_C10_amended exFetcherProbe 1000 5000 5900 1 (by decide)⟩

/-! ## C4 — the justification probe phase of the block search -/

/-- C4: when the epoch shortcut does not fire (so the probe phase is reached;
the interval must be positive, else the rounding panics — see C10) and the
search returns `some b`, then `b` lies between the rounded candidate and
`max_valid = min (current_block + tree_size) chain_head`, exceeds the current
block, carries a justification, and is the smallest justified block at or
above the candidate; and if no block in `[candidate, max_valid]` has a
justification, the search returns `none`. -/
theorem claim_C4_probe_phase (fetcher : RpcDataFetcher)
    (ideal_block_interval header_range_commitment_tree_size
      vectorx_current_block avail_current_block authority_set_id : Nat)
    (hpos : 0 < ideal_block_interval)
    (hns : ¬(fetcher.last_justified_block authority_set_id ≠ 0 ∧
      fetcher.last_justified_block authority_set_id ≤
        vectorx_current_block + header_range_commitment_tree_size)) :
    (∀ b,
      find_block_to_step_to fetcher ideal_block_interval header_range_commitment_tree_size
          vectorx_current_block avail_current_block authority_set_id =
        Except.ok (some b) →
      min (vectorx_current_block + header_range_commitment_tree_size) avail_current_block -
          min (vectorx_current_block + header_range_commitment_tree_size) avail_current_block %
            ideal_block_interval ≤ b ∧
      b ≤ min (vectorx_current_block + header_range_commitment_tree_size) avail_current_block ∧
      vectorx_current_block < b ∧
      fetcher.justification_exists b = true ∧
      ∀ c,
        min (vectorx_current_block + header_range_commitment_tree_size) avail_current_block -
            min (vectorx_current_block + header_range_commitment_tree_size) avail_current_block %
              ideal_block_interval ≤ c →
        c < b → fetcher.justification_exists c = false) ∧
    ((∀ c,
        min (vectorx_current_block + header_range_commitment_tree_size) avail_current_block -
            min (vectorx_current_block + header_range_commitment_tree_size) avail_current_block %
              ideal_block_interval ≤ c →
        c ≤ min (vectorx_current_block + header_range_commitment_tree_size) avail_current_block →
        fetcher.justification_exists c = false) →
      find_block_to_step_to fetcher ideal_block_interval header_range_commitment_tree_size
          vectorx_current_block avail_current_block authority_set_id =
        Except.ok none) := by
  set M := min (vectorx_current_block + header_range_commitment_tree_size) avail_current_block
    with hM
  set C := M - M % ideal_block_interval with hC
  unfold find_block_to_step_to
  rw [if_neg hns, if_neg (Nat.pos_iff_ne_zero.mp hpos)]
  rw [← hM, ← hC]
  by_cases hle : C ≤ vectorx_current_block
  · rw [if_pos hle]
    constructor
    · intro b hb
      exact absurd hb (by simp)
    · intro _; rfl
  · rw [if_neg hle]
    constructor
    · intro b hb
      have hp : probe_loop fetcher.justification_exists M (M + 1 - C) C = some b := by
        injection hb
      obtain ⟨h1, h2, h3, h4⟩ := probe_loop_eq_some _ _ _ _ _ hp
      exact ⟨h1, h2, lt_of_lt_of_le (not_le.mp hle) h1, h3, h4⟩
    · intro hall
      rw [probe_loop_eq_none fetcher.justification_exists M _ C
        (fun c hc1 hc2 => hall c hc1 hc2)]

/-- C4, witness: the spec's worked example — tree size 1000, interval 360,
current block 5000, chain head 5900, last justified block 0, justification
available only at 5761 (candidate 5760 lacks one). -/
theorem claim_C4_witness :
    (0 < 360 ∧
      ¬(exFetcherProbe.last_justified_block 1 ≠ 0 ∧
        exFetcherProbe.last_justified_block 1 ≤ 5000 + 1000)) ∧
    ((∀ b,
      find_block_to_step_to exFetcherProbe 360 1000 5000 5900 1 = Except.ok (some b) →
      min (5000 + 1000) 5900 - min (5000 + 1000) 5900 % 360 ≤ b ∧
      b ≤ min (5000 + 1000) 5900 ∧
      5000 < b ∧
      exFetcherProbe.justification_exists b = true ∧
      ∀ c, min (5000 + 1000) 5900 - min (5000 + 1000) 5900 % 360 ≤ c →
        c < b → exFetcherProbe.justification_exists c = false) ∧
    ((∀ c, min (5000 + 1000) 5900 - min (5000 + 1000) 5900 % 360 ≤ c →
        c ≤ min (5000 + 1000) 5900 → exFetcherProbe.justification_exists c = false) →
      find_block_to_step_to exFetcherProbe 360 1000 5000 5900 1 = Except.ok none)) :=
  ⟨⟨by decide, by decide⟩,
    claim_C4_probe_phase exFetcherProbe 360 1000 5000 5900 1 (by decide) (by decide)⟩

/-- The spec's worked example evaluated: the probe starts at candidate 5760,
finds no justification there, and lands on 5761. -/
theorem probe_phase_example :
    find_block_to_step_to exFetcherProbe 360 1000 5000 5900 1 = Except.ok (some 5761) := rfl

/-! ## C6 — epoch boundary handling in `find_header_range` -/

/-- A contract snapshot sitting exactly at authority set 2's last justified
block (50), with the hash for set 3 present (9). -/
def exContractHR : SP1VectorContract :=
  { latestBlock := 50
    latestAuthoritySetId := 2
    authoritySetIdToHash := fun id => if id = 3 then 9 else 0
    headerRangeCommitmentTreeSize := 100 }

/-- The matching chain state: block 49 belongs to set 2, whose last justified
block is 50. -/
def exFetcherHR : RpcDataFetcher :=
  { head_block := 60
    authority_set_id := fun b => if b = 49 then 2 else 0
    last_justified_block := fun id => if id = 2 then 50 else 0
    justification_exists := fun b => b = 55 }

/-- C6: when the contract's latest block equals the last justified block of
its current authority set (derived from the block before `latestBlock`), then:
if the contract stores no hash for the next authority set, `find_header_range`
returns `none` for *every* block-search routine (the search is not invoked);
if the hash is present, the result is exactly the search's answer for
authority set `current_id + 1` (paired with `latestBlock`). The last conjunct
records that `find_header_range` is this plan with the search instantiated to
`find_block_to_step_to` on the contract data. -/
theorem claim_C6_epoch_boundary (contract : SP1VectorContract) (fetcher : RpcDataFetcher)
    (hb : contract.latestBlock =
      fetcher.last_justified_block (fetcher.authority_set_id (contract.latestBlock - 1))) :
    (∀ search : Nat → Except PanicKind (Option Nat),
      contract.authoritySetIdToHash
          (fetcher.authority_set_id (contract.latestBlock - 1) + 1) = 0 →
      find_header_range_with search contract fetcher = Except.ok none) ∧
    (∀ search : Nat → Except PanicKind (Option Nat),
      contract.authoritySetIdToHash
          (fetcher.authority_set_id (contract.latestBlock - 1) + 1) ≠ 0 →
      find_header_range_with search contract fetcher =
        match search (fetcher.authority_set_id (contract.latestBlock - 1) + 1) with
        | Except.error p => Except.error p
        | Except.ok (some block_to_step_to) =>
            Except.ok (some (contract.latestBlock, block_to_step_to))
        | Except.ok none => Except.ok none) ∧
    (∀ ideal_block_interval : Nat,
      find_header_range contract fetcher ideal_block_interval =
        find_header_range_with
          (fun request_authority_set_id =>
            find_block_to_step_to fetcher ideal_block_interval
              contract.headerRangeCommitmentTreeSize contract.latestBlock
              fetcher.head_block request_authority_set_id)
          contract fetcher) := by
  refine ⟨fun search h0 => ?_, fun search h0 => ?_, fun _ => rfl⟩
  · simp only [find_header_range_with, get_contract_data_for_header_range]
    rw [if_pos hb, if_pos]
    simp [h0]
  · simp only [find_header_range_with, get_contract_data_for_header_range]
    rw [if_pos hb, if_neg]
    simp [bne_eq_false_iff_eq, h0]

/-- C6, witness: the snapshot above sits at the epoch boundary with the next
hash present, so the result is the search's answer for set 3. -/
theorem claim_C6_witness :
    (exContractHR.latestBlock =
      exFetcherHR.last_justified_block
        (exFetcherHR.authority_set_id (exContractHR.latestBlock - 1))) ∧
    ((∀ search : Nat → Except PanicKind (Option Nat),
      exContractHR.authoritySetIdToHash
          (exFetcherHR.authority_set_id (exContractHR.latestBlock - 1) + 1) = 0 →
      find_header_range_with search exContractHR exFetcherHR = Except.ok none) ∧
    (∀ search : Nat → Except PanicKind (Option Nat),
      exContractHR.authoritySetIdToHash
          (exFetcherHR.authority_set_id (exContractHR.latestBlock - 1) + 1) ≠ 0 →
      find_header_range_with search exContractHR exFetcherHR =
        match search (exFetcherHR.authority_set_id (exContractHR.latestBlock - 1) + 1) with
        | Except.error p => Except.error p
        | Except.ok (some block_to_step_to) =>
            Except.ok (some (exContractHR.latestBlock, block_to_step_to))
        | Except.ok none => Except.ok none) ∧
    (∀ ideal_block_interval : Nat,
      find_header_range exContractHR exFetcherHR ideal_block_interval =
        find_header_range_with
          (fun request_authority_set_id =>
            find_block_to_step_to exFetcherHR ideal_block_interval
              exContractHR.headerRangeCommitmentTreeSize exContractHR.latestBlock
              exFetcherHR.head_block request_authority_set_id)
          exContractHR exFetcherHR)) :=
  ⟨by decide, claim_C6_epoch_boundary exContractHR exFetcherHR (by decide)⟩

/-! ## C7 — receipt-status check on the self-signed path -/

/-- A self-signed relay configuration whose transaction is mined but reverts
(receipt status false, transaction hash 42). -/
def exEnvReverted : RelayEnv :=
  { sp1_prover := some "local"
    use_kms_relayer := false
    kms_result := Except.ok 1
    send_result := Except.ok { status := false, transaction_hash := 42 } }

/-- A proof artifact used by the relay witnesses. -/
def exProof : SP1Proof :=
  { bytes := [1, 2, 3], public_values := [4, 5] }

/-- C7: on the self-signed path (`use_kms_relayer = false`, `SP1_PROVER` set),
when the transaction is mined (`send_result` yields a receipt) with status
`false`, both `relay_header_range` and `relay_rotate` return the
"Transaction reverted!" error rather than the transaction hash; they return
the hash exactly when the status is `true`. -/
theorem claim_C7_receipt_status (env : RelayEnv) (proof : SP1Proof) (s : String)
    (receipt : Receipt)
    (hkms : env.use_kms_relayer = false)
    (hset : env.sp1_prover = some s)
    (hsend : env.send_result = Except.ok receipt) :
    (receipt.status = false →
      (relay_header_range env proof).returned = some (Except.error "Transaction reverted!") ∧
      (relay_rotate env proof).returned = some (Except.error "Transaction reverted!")) ∧
    (receipt.status = true →
      (relay_header_range env proof).returned = some (Except.ok receipt.transaction_hash) ∧
      (relay_rotate env proof).returned = some (Except.ok receipt.transaction_hash)) := by
  rcases env with ⟨sp, kms, kres, sres⟩
  dsimp only at hkms hset hsend
  subst hkms hset hsend
  constructor
  · intro hst
    constructor <;>
      simp [relay_header_range, relay_rotate, RelayOutcome.returned, hst]
  · intro hst
    constructor <;>
      simp [relay_header_range, relay_rotate, RelayOutcome.returned, hst]

/-- C7, witness: a mined-but-reverted receipt on the self-signed path is
reported as a failure. -/
theorem claim_C7_witness :
    (exEnvReverted.use_kms_relayer = false ∧
      exEnvReverted.sp1_prover = some "local" ∧
      exEnvReverted.send_result = Except.ok { status := false, transaction_hash := 42 }) ∧
    (({ status := false, transaction_hash := 42 } : Receipt).status = false →
      (relay_header_range exEnvReverted exProof).returned =
        some (Except.error "Transaction reverted!") ∧
      (relay_rotate exEnvReverted exProof).returned =
        some (Except.error "Transaction reverted!")) ∧
    (({ status := false, transaction_hash := 42 } : Receipt).status = true →
      (relay_header_range exEnvReverted exProof).returned =
        some (Except.ok ({ status := false, transaction_hash := 42 } : Receipt).transaction_hash) ∧
      (relay_rotate exEnvReverted exProof).returned =
        some (Except.ok ({ status := false, transaction_hash := 42 } : Receipt).transaction_hash)) :=
  ⟨⟨rfl, rfl, rfl⟩,
    claim_C7_receipt_status exEnvReverted exProof "local"
      { status := false, transaction_hash := 42 } rfl rfl rfl⟩

/-! ## C8 — mock-proving payload replacement -/

/-- C8: with `SP1_PROVER` set, both relay paths submit an empty proof-bytes
payload exactly when the configured prover (lowercased) is "mock", the
unmodified `proof.bytes()` otherwise; the public-values payload is always
`proof.public_values` unmodified. Holds for both the custodial and the
self-signed branch and for every send/KMS outcome. -/
theorem claim_C8_mock_payload (env : RelayEnv) (proof : SP1Proof) (s : String)
    (hset : env.sp1_prover = some s) :
    (s.toLower = "mock" →
      (relay_header_range env proof).submitted_proof_bytes = some [] ∧
      (relay_rotate env proof).submitted_proof_bytes = some []) ∧
    (s.toLower ≠ "mock" →
      (relay_header_range env proof).submitted_proof_bytes = some proof.bytes ∧
      (relay_rotate env proof).submitted_proof_bytes = some proof.bytes) ∧
    ((relay_header_range env proof).submitted_public_values = some proof.public_values ∧
      (relay_rotate env proof).submitted_public_values = some proof.public_values) := by
  rcases env with ⟨sp, kms, kres, sres⟩
  dsimp only at hset
  subst hset
  refine ⟨fun hmock => ⟨?_, ?_⟩, fun hmock => ⟨?_, ?_⟩, ?_, ?_⟩
  all_goals
    simp only [relay_header_range, relay_rotate, RelayOutcome.submitted_proof_bytes,
      RelayOutcome.submitted_public_values]
  all_goals cases kms
  all_goals rcases sres with e | r
  all_goals try cases hst : r.status
  all_goals simp_all

/-- C8, witness: with `SP1_PROVER=mock` the proof payload is emptied while the
public values pass through, on both relay paths. -/
theorem claim_C8_witness :
    (({ sp1_prover := some "mock", use_kms_relayer := true, kms_result := Except.ok 1,
        send_result := Except.ok { status := true, transaction_hash := 9 } } :
          RelayEnv).sp1_prover = some "mock") ∧
    (("mock".toLower = "mock" →
      (relay_header_range
          { sp1_prover := some "mock", use_kms_relayer := true, kms_result := Except.ok 1,
            send_result := Except.ok { status := true, transaction_hash := 9 } }
          exProof).submitted_proof_bytes = some [] ∧
      (relay_rotate
          { sp1_prover := some "mock", use_kms_relayer := true, kms_result := Except.ok 1,
            send_result := Except.ok { status := true, transaction_hash := 9 } }
          exProof).submitted_proof_bytes = some []) ∧
    ("mock".toLower ≠ "mock" →
      (relay_header_range
          { sp1_prover := some "mock", use_kms_relayer := true, kms_result := Except.ok 1,
            send_result := Except.ok { status := true, transaction_hash := 9 } }
          exProof).submitted_proof_bytes = some exProof.bytes ∧
      (relay_rotate
          { sp1_prover := some "mock", use_kms_relayer := true, kms_result := Except.ok 1,
            send_result := Except.ok { status := true, transaction_hash := 9 } }
          exProof).submitted_proof_bytes = some exProof.bytes) ∧
    ((relay_header_range
          { sp1_prover := some "mock", use_kms_relayer := true, kms_result := Except.ok 1,
            send_result := Except.ok { status := true, transaction_hash := 9 } }
          exProof).submitted_public_values = some exProof.public_values ∧
      (relay_rotate
          { sp1_prover := some "mock", use_kms_relayer := true, kms_result := Except.ok 1,
            send_result := Except.ok { status := true, transaction_hash := 9 } }
          exProof).submitted_public_values = some exProof.public_values)) :=
  ⟨rfl,
    claim_C8_mock_payload
      { sp1_prover := some "mock", use_kms_relayer := true, kms_result := Except.ok 1,
        send_result := Except.ok { status := true, transaction_hash := 9 } }
      exProof "mock" rfl⟩

/-! ## C9 — unconditional `SP1_PROVER` unwrap -/

/-- C9: both relay functions unwrap `SP1_PROVER` before selecting a relay
path, so with the variable unset they panic — a panic, not a returned error —
for every configuration, including the custodial (`use_kms_relayer = true`)
one and regardless of any mock-proving intent. -/
theorem claim_C9_unwrap_panic (env : RelayEnv) (proof : SP1Proof)
    (hunset : env.sp1_prover = none) :
    relay_header_range env proof = RelayOutcome.panicked PanicKind.unwrapFailed ∧
    relay_rotate env proof = RelayOutcome.panicked PanicKind.unwrapFailed := by
  rcases env with ⟨sp, kms, kres, sres⟩
  dsimp only at hunset
  subst hunset
  exact ⟨rfl, rfl⟩

/-- C9, witness: the custodial path with a healthy KMS service still panics
when `SP1_PROVER` is unset. -/
theorem claim_C9_witness :
    (({ sp1_prover := none, use_kms_relayer := true, kms_result := Except.ok 1,
        send_result := Except.ok { status := true, transaction_hash := 9 } } :
          RelayEnv).sp1_prover = none) ∧
    (relay_header_range
        { sp1_prover := none, use_kms_relayer := true, kms_result := Except.ok 1,
          send_result := Except.ok { status := true, transaction_hash := 9 } }
        exProof = RelayOutcome.panicked PanicKind.unwrapFailed ∧
      relay_rotate
        { sp1_prover := none, use_kms_relayer := true, kms_result := Except.ok 1,
          send_result := Except.ok { status := true, transaction_hash := 9 } }
        exProof = RelayOutcome.panicked PanicKind.unwrapFailed) :=
  ⟨rfl,
    claim_C9_unwrap_panic
      { sp1_prover := none, use_kms_relayer := true, kms_result := Except.ok 1,
        send_result := Except.ok { status := true, transaction_hash := 9 } }
      exProof rfl⟩

/-! ## C2 — failure isolation in the operator loop -/

/-- A cycle in which the rotate relay fails while a header-range action is
available and would succeed. -/
def exOracleRotateRelayFail : CycleOracle :=
  { find_rotate_result := Except.ok (some 4)
    request_rotate_result := Except.ok exProof
    relay_rotate_result := Except.error "rotate relay failed"
    find_header_range_result := Except.ok (some (100, 460))
    request_header_range_result := Except.ok exProof
    relay_header_range_result := Except.ok 7 }

/-- C2, counterexample. The claim says a relay failure in the rotate state
does not prevent the header-range state from executing in the same cycle. In
this cycle the rotate relay fails while a header-range action `(100, 460)` is
planned and its proving and relaying would succeed; yet `run_cycle` produces
no event at all — the header-range state never runs — and the error escapes
`run` (to be caught only by `main`'s outer loop). -/
theorem claim_C2_counterexample :
    run_cycle exOracleRotateRelayFail = ([], some "rotate relay failed") ∧
    exOracleRotateRelayFail.find_header_range_result = Except.ok (some (100, 460)) ∧
    exOracleRotateRelayFail.request_header_range_result = Except.ok exProof ∧
    exOracleRotateRelayFail.relay_header_range_result = Except.ok 7 :=
  ⟨rfl, rfl, rfl, rfl⟩

/-- C2, amended: within one cycle, only a header-range proof-generation
failure is caught and logged in-cycle; a failure in rotate proving, rotate
relaying, or header-range relaying propagates out of `run` with `?`, skipping
the remainder of the cycle (including the other state). The propagated error
is caught and logged one level up, by `main`'s supervision loop, which
immediately re-invokes `run`, so the process does not terminate and the next
cycle replans from fresh on-chain state. -/
theorem claim_C2_amended :
    (∀ (id : Nat) (e : String) (lr : Except String Nat)
        (fh : Except String (Option (Nat × Nat)))
        (rh : Except String SP1Proof) (lh : Except String Nat),
      run_cycle
          { find_rotate_result := Except.ok (some id),
            request_rotate_result := Except.error e, relay_rotate_result := lr,
            find_header_range_result := fh, request_header_range_result := rh,
            relay_header_range_result := lh } =
        ([], some e)) ∧
    (∀ (id : Nat) (p : SP1Proof) (e : String)
        (fh : Except String (Option (Nat × Nat)))
        (rh : Except String SP1Proof) (lh : Except String Nat),
      run_cycle
          { find_rotate_result := Except.ok (some id),
            request_rotate_result := Except.ok p,
            relay_rotate_result := Except.error e,
            find_header_range_result := fh, request_header_range_result := rh,
            relay_header_range_result := lh } =
        ([], some e)) ∧
    (∀ (from_block to_block : Nat) (e : String)
        (rr : Except String SP1Proof) (lr lh : Except String Nat),
      run_cycle
          { find_rotate_result := Except.ok none,
            request_rotate_result := rr, relay_rotate_result := lr,
            find_header_range_result := Except.ok (some (from_block, to_block)),
            request_header_range_result := Except.error e,
            relay_header_range_result := lh } =
        ([CycleEvent.headerRangeProofFailed e], none)) ∧
    (∀ (from_block to_block : Nat) (p : SP1Proof) (e : String)
        (rr : Except String SP1Proof) (lr : Except String Nat),
      run_cycle
          { find_rotate_result := Except.ok none,
            request_rotate_result := rr, relay_rotate_result := lr,
            find_header_range_result := Except.ok (some (from_block, to_block)),
            request_header_range_result := Except.ok p,
            relay_header_range_result := Except.error e } =
        ([], some e)) ∧
    (∀ oracle : CycleOracle, (main_iteration oracle).2 = true) :=
  ⟨fun _ _ _ _ _ _ => rfl, fun _ _ _ _ _ _ => rfl, fun _ _ _ _ _ _ => rfl,
    fun _ _ _ _ _ _ => rfl, fun _ => rfl⟩

end SP1Vector
